import Mathlib

/-
Verification of the kids-gallery web application's core client-side logic.

The development shallowly embeds the pure logic of the repository:
  * the "made at" date-string validator of the upload page
    (parseArtworkMadeAt in the upload page source),
  * the visibility / expiry state machine of the manage page
    (isExpired, togglePublic, extendTwoWeeks, deleteArtwork, the extend
    button enablement, and the status badge classification),
  * the invite-token generator makeToken,
  * the gallery page's daysLeft / "days left" rendering,
  * the invite page's loadAll token gate.

Conventions of the embedding:
  * JavaScript timestamps (milliseconds since the epoch) are Int;
    nullable timestamp strings become Option Int (an unparseable string,
    whose getTime() is NaN, is absorbed into none).
  * JavaScript Date calendar normalization (new Date(y, m, d) with
    out-of-range day) is modelled by proleptic-Gregorian epoch-day
    arithmetic (daysFromCivil / civilFromDays below).
  * Remote calls are modelled by passing their outcome in as data and
    recording which calls a handler issues.
-/

namespace KidsGallery

/-! ## Proleptic Gregorian calendar arithmetic

JavaScript `new Date(year, monthIndex, day)` normalizes an out-of-range
`day` by pure day arithmetic: the time value is the one of day 1 of the
(normalized) month plus `day - 1` days.  We model the civil-date/epoch-day
correspondence with the standard era-based algorithms.  All divisions are
by positive constants, and `Int./` (Euclidean division) agrees with floor
division there, which is what the algorithm requires. -/

/-- Epoch day number (days since 1970-01-01) of the civil date y-m-d,
month in 1..12. -/
def daysFromCivil (y m d : Int) : Int :=
  let yAdj := if m ≤ 2 then y - 1 else y
  let era := yAdj / 400
  let yoe := yAdj - era * 400
  let mp := if 2 < m then m - 3 else m + 9
  let doy := (153 * mp + 2) / 5 + (d - 1)
  let doe := yoe * 365 + yoe / 4 - yoe / 100 + doy
  era * 146097 + doe - 719468

/-- Civil date (year, month, day) of an epoch day number. -/
def civilFromDays (z0 : Int) : Int × Int × Int :=
  let z := z0 + 719468
  let era := z / 146097
  let doe := z - era * 146097
  let yoe := (doe - doe / 1460 + doe / 36524 - doe / 146096) / 365
  let y := yoe + era * 400
  let doy := doe - (365 * yoe + yoe / 4 - yoe / 100)
  let mp := (5 * doy + 2) / 153
  let d := doy - (153 * mp + 2) / 5 + 1
  let m := if mp < 10 then mp + 3 else mp - 9
  (if m ≤ 2 then y + 1 else y, m, d)

/-- Epoch day of JavaScript `new Date(y, m - 1, d)` (month m in 1..12, day
d arbitrary): day 1 of the month plus `d - 1` days, i.e. out-of-range days
roll over into the following months. -/
def jsEpochDay (y m d : Int) : Int :=
  daysFromCivil y m 1 + (d - 1)

/-- JavaScript `Date(year, ...)` quirk: a year argument in 0..99 is
interpreted as 1900 + year. -/
def jsYear (yyyy : Nat) : Int :=
  if yyyy ≤ 99 then 1900 + (yyyy : Int) else (yyyy : Int)

/-- JavaScript time-value clipping: a Date whose time value exceeds
8.64e15 ms in magnitude is invalid (getTime() is NaN).  Here applied to a
midnight time value given as an epoch day. -/
def jsDateValid (epochDay : Int) : Bool :=
  decide (-8640000000000000 ≤ epochDay * 86400000 ∧
          epochDay * 86400000 ≤ 8640000000000000)

/-! ## The upload page's "made at" validator

Source (upload page):

  function parseArtworkMadeAt(input) {
    const t = input.trim();
    const m = /^(\d{4})-(\d{2})-(\d{2})\s+(\d{2}):(\d{2})$/.exec(t);
    if (!m) return { iso: null, error: "형식은 YYYY-MM-DD 24:00 입니다." };
    ... range checks in order: month, day, minutes, hours ...
    const base = new Date(yyyy, mm - 1, dd, 0, 0, 0, 0);
    if (Number.isNaN(base.getTime())) return { ... "날짜가 올바르지 않습니다." };
    if (hh === 24) { base.setDate(base.getDate() + 1); hh = 0; }
    base.setHours(hh, 0, 0, 0);
    return { iso: base.toISOString(), error: null };
  }

We model the result as the local civil date-time (year, month, day, hour;
minutes are always zero), and each distinct error message as a
constructor. -/

inductive MadeAtError where
  | patternErr
  | monthErr
  | dayErr
  | minutesErr
  | hoursErr
  | invalidDateErr
  deriving DecidableEq, Repr

structure LocalDT where
  year : Int
  month : Int
  day : Int
  hour : Int
  deriving DecidableEq, Repr

/-- Whitespace class used by the regex `\s` and by `String.prototype.trim`
(ASCII portion). -/
def jsWhitespaceChar (c : Char) : Bool :=
  c = ' ' || c = '\t' || c = '\n' || c = '\r' || c = '\x0b' || c = '\x0c'

/-- Model of `String.prototype.trim`. -/
def jsTrim (s : String) : String :=
  String.mk (((s.toList.dropWhile jsWhitespaceChar).reverse.dropWhile
      jsWhitespaceChar).reverse)

/-- The regex class `\d`, i.e. code points of '0'..'9'. -/
def isDigitChar (c : Char) : Bool := decide (48 ≤ c.toNat ∧ c.toNat ≤ 57)

def digitVal (c : Char) : Nat := c.toNat - 48

/-- Consume exactly n decimal digits, returning their value (with
accumulator) and the rest of the input. -/
def readFixedDigits : Nat → Nat → List Char → Option (Nat × List Char)
  | 0, acc, cs => some (acc, cs)
  | Nat.succ k, acc, c :: cs =>
      if isDigitChar c then readFixedDigits k (acc * 10 + digitVal c) cs
      else none
  | Nat.succ _, _, [] => none

def expectChar (c : Char) : List Char → Option (List Char)
  | x :: xs => if x = c then some xs else none
  | [] => none

/-- Consume one or more whitespace characters (the regex `\s+`; greedy
matching is equivalent here since `\s` and `\d` are disjoint). -/
def skipWs1 : List Char → Option (List Char)
  | x :: xs =>
      if jsWhitespaceChar x then some (xs.dropWhile jsWhitespaceChar)
      else none
  | [] => none

/-- Model of the anchored regex
`^(\d{4})-(\d{2})-(\d{2})\s+(\d{2}):(\d{2})$`, returning the five captured
numbers (year, month, day, hour, minute). -/
def madeAtMatch (cs : List Char) : Option (Nat × Nat × Nat × Nat × Nat) := do
  let (yyyy, cs) ← readFixedDigits 4 0 cs
  let cs ← expectChar '-' cs
  let (mm, cs) ← readFixedDigits 2 0 cs
  let cs ← expectChar '-' cs
  let (dd, cs) ← readFixedDigits 2 0 cs
  let cs ← skipWs1 cs
  let (hh, cs) ← readFixedDigits 2 0 cs
  let cs ← expectChar ':' cs
  let (mi, cs) ← readFixedDigits 2 0 cs
  if cs.isEmpty then some (yyyy, mm, dd, hh, mi) else none

/-- Range checks and date construction applied to the five captured
numbers, in source order: month, day, minutes, hours, then the Date
validity (NaN) check, then the 24:00 next-day normalization. -/
def checkMadeAtFields (yyyy mm dd hh mi : Nat) : Except MadeAtError LocalDT :=
  if mm < 1 ∨ 12 < mm then .error .monthErr
  else if dd < 1 ∨ 31 < dd then .error .dayErr
  else if mi ≠ 0 then .error .minutesErr
  else if ¬ (hh = 24 ∨ hh ≤ 23) then .error .hoursErr
  else
    let day0 := jsEpochDay (jsYear yyyy) (mm : Int) (dd : Int)
    if ¬ jsDateValid day0 then .error .invalidDateErr
    else
      let day1 := if hh = 24 then day0 + 1 else day0
      let c := civilFromDays day1
      .ok ⟨c.1, c.2.1, c.2.2, if hh = 24 then 0 else (hh : Int)⟩

/-- The validator: trim, match the pattern, then apply the checks. -/
def parseArtworkMadeAt (input : String) : Except MadeAtError LocalDT :=
  match madeAtMatch (jsTrim input).toList with
  | none => .error .patternErr
  | some (yyyy, mm, dd, hh, mi) => checkMadeAtFields yyyy mm dd hh mi

/-- Local date-time at midnight of a given epoch day. -/
def localMidnight (epochDay : Int) : LocalDT :=
  ⟨(civilFromDays epochDay).1, (civilFromDays epochDay).2.1,
   (civilFromDays epochDay).2.2, 0⟩

/-! ## Manage page: artwork record and the visibility / expiry machine -/

/-- An artwork row as the manage page sees it.  Timestamp strings are
modelled as epoch-millisecond integers; the nullable `public_until` is an
`Option`. -/
structure Artwork where
  id : String
  kid_name : String
  title : String
  private_image_path : String
  created_at : Int
  is_public : Bool
  public_until : Option Int
  artwork_made_at : Option Int
  deriving DecidableEq, Repr

/-- 14 days in milliseconds (`TWO_WEEKS_MS` in both the manage page and
the upload-era page). -/
def TWO_WEEKS_MS : Int := 14 * 24 * 60 * 60 * 1000

/-- Source (identical in src/app/manage/page.tsx and in the second page
variant):

  function isExpired(art) {
    if (!art.is_public) return false;
    if (!art.public_until) return false;
    return new Date(art.public_until).getTime() <= Date.now();
  }

`now` is passed explicitly in place of `Date.now()`. -/
def isExpired (art : Artwork) (now : Int) : Bool :=
  if !art.is_public then false
  else match art.public_until with
    | none => false
    | some t => decide (t ≤ now)

/-- The partial-update payload `{ is_public, public_until }` written to
the artworks table by the mutations. -/
structure UpdatePayload where
  is_public : Bool
  public_until : Option Int
  deriving DecidableEq, Repr

/-- Payload computed by `togglePublic`:

  const next = !art.is_public;
  const payload = {
    is_public: next,
    public_until: next ? toISO(new Date(Date.now() + TWO_WEEKS_MS)) : null,
  }; -/
def togglePublic (art : Artwork) (now : Int) : UpdatePayload :=
  let next := !art.is_public
  ⟨next, if next then some (now + TWO_WEEKS_MS) else none⟩

/-- Payload computed by `extendTwoWeeks`:

  const payload = {
    is_public: true,
    public_until: toISO(new Date(Date.now() + TWO_WEEKS_MS)),
  }; -/
def extendTwoWeeks (now : Int) : UpdatePayload :=
  ⟨true, some (now + TWO_WEEKS_MS)⟩

/-- Effect of the partial update on the row (the remote `update` call
followed by the reload of the list). -/
def applyUpdate (art : Artwork) (p : UpdatePayload) : Artwork :=
  { art with is_public := p.is_public, public_until := p.public_until }

/-- The three derived visibility states of the spec. -/
inductive ArtState where
  | Private
  | PublicActive
  | PublicExpired
  deriving DecidableEq, Repr

/-- Classification as rendered by `StatusBadge`: 비공개 when not public,
전시만료 when `isExpired`, 공개중 otherwise. -/
def artState (art : Artwork) (now : Int) : ArtState :=
  if !art.is_public then .Private
  else if isExpired art now then .PublicExpired
  else .PublicActive

/-- Enablement of the extend control in the manage page render:

  const expired = isExpired(a);
  const extendEnabled = a.is_public && expired; -/
def extendEnabled (art : Artwork) (now : Int) : Bool :=
  art.is_public && isExpired art now

/-- Sample row: a currently public artwork. -/
def artPub : Artwork := ⟨"a1", "유나", "바다 그림", "fam/a1.jpg", 0, true, some 5, none⟩

/-- Sample row: a private artwork. -/
def artPriv : Artwork := ⟨"a2", "유나", "하늘 그림", "fam/a2.jpg", 0, false, none, none⟩

/-- Sample row: public but with a null public_until. -/
def artPubNoUntil : Artwork := ⟨"a3", "유나", "숲 그림", "fam/a3.jpg", 0, true, none, none⟩

/-! ## Manage page: invite-token generator

  function makeToken(len = 24) {
    const alphabet = "ABCDEFGHJKLMNPQRSTUVWXYZabcdefghijkmnopqrstuvwxyz23456789";
    const bytes = new Uint8Array(len);
    crypto.getRandomValues(bytes);
    let out = "";
    for (let i = 0; i < bytes.length; i++) out += alphabet[bytes[i] % alphabet.length];
    return out;
  }

The random source is modelled by passing the byte list in; each byte is in
0..255. -/

def tokenAlphabet : List Char :=
  "ABCDEFGHJKLMNPQRSTUVWXYZabcdefghijkmnopqrstuvwxyz23456789".toList

/-- The byte-to-character selection `alphabet[b % alphabet.length]`. -/
def tokenCharOfByte (b : Nat) : Char :=
  tokenAlphabet.getD (b % tokenAlphabet.length) 'A'

/-- `makeToken`, with the `len` random bytes supplied as input. -/
def makeToken (bytes : List Nat) : String :=
  String.mk (bytes.map tokenCharOfByte)

/-- Token length used at the createOrRegenerateInvite call site:
`const next = makeToken(28);`. -/
def inviteTokenLen : Nat := 28

/-! ## Manage page: deleteArtwork

  const storagePath = getStoragePathFromPrivateImagePath(art.private_image_path);
  if (storagePath) {
    const { error: stErr } = await supabase.storage.from("artworks").remove([storagePath]);
    if (stErr) setMsg("⚠️ 사진 삭제 실패(그래도 DB는 지울게): " + stErr.message);
  } else { setMsg("⚠️ 사진 경로를 못 찾아서 DB만 지울게요."); }
  const { error: dbErr } = await supabase.from("artworks").delete().eq("id", art.id);
  if (dbErr) { setMsg("❌ DB 삭제 실패: " + dbErr.message); setBusyId(null); return; }
  setItems((prev) => prev.filter((x) => x.id !== art.id));

The derivation of `storagePath` (URL parsing inside
getStoragePathFromPrivateImagePath) is not re-modelled; the handler is
parameterised over the derived path, since its control flow depends only
on whether the path is empty.  Remote effects are recorded as an action
trace; `storageFails` / `dbFails` give the outcome of each remote call. -/

inductive DeleteAction where
  | removeStorage (path : String)
  | deleteDb (id : String)
  deriving DecidableEq, Repr

structure DeleteOutcome where
  actions : List DeleteAction
  items : List Artwork
  warnMsg : Option String
  finalMsg : String
  deriving Repr

def deleteArtwork (art : Artwork) (items : List Artwork)
    (confirmOk : Bool) (storagePath : String)
    (storageFails : Bool) (dbFails : Bool) : DeleteOutcome :=
  if !confirmOk then ⟨[], items, none, ""⟩
  else
    let storageActs :=
      if storagePath ≠ "" then [DeleteAction.removeStorage storagePath] else []
    let warn : Option String :=
      if storagePath = "" then some "⚠️ 사진 경로를 못 찾아서 DB만 지울게요."
      else if storageFails then some "⚠️ 사진 삭제 실패(그래도 DB는 지울게)"
      else none
    let acts := storageActs ++ [DeleteAction.deleteDb art.id]
    if dbFails then ⟨acts, items, warn, "❌ DB 삭제 실패"⟩
    else ⟨acts, items.filter (fun x => x.id ≠ art.id), warn, "✅ 삭제 완료"⟩

/-! ## Gallery page: days-left computation and rendering

  function daysLeft(iso) {
    if (!iso) return null;
    const t = new Date(iso).getTime() - Date.now();
    if (Number.isNaN(t)) return null;
    const d = Math.ceil(t / (24 * 60 * 60 * 1000));
    return d;
  }

  const left = daysLeft(a.public_until);
  const leftText = left == null ? "" : left <= 0 ? "오늘 종료" : `...일 남음`;
-/

/-- Ceiling division for a positive divisor, as produced by
`Math.ceil(t / m)`: the negation of the floor division of the negation
(`Int./` is floor division for positive divisors). -/
def ceilDiv (a b : Int) : Int := -((-a) / b)

def MS_PER_DAY : Int := 24 * 60 * 60 * 1000

def daysLeft (untilTs : Option Int) (now : Int) : Option Int :=
  match untilTs with
  | none => none
  | some t => some (ceilDiv (t - now) MS_PER_DAY)

def leftText (untilTs : Option Int) (now : Int) : String :=
  match daysLeft untilTs now with
  | none => ""
  | some l => if l ≤ 0 then "오늘 종료" else toString l ++ "일 남음"

/-! ## Invite page: loadAll token gate

  const loadAll = async () => {
    if (!token || token.trim().length < 6) {
      setLoading(false);
      setStatus("❌ 초대 링크가 올바르지 않습니다.");
      setArtworks([]); setEntries([]);
      return;
    }
    ...
    const [guestRes, artRes] = await Promise.all([loadGuestbook(), loadArtworks()]);
    if (!guestRes.ok || !artRes.ok) { setStatus("❌ 초대 링크를 불러오지 못했습니다. ..."); return; }
    if (artRes.count === 0) setStatus("표시할 작품이 아직 없어요."); else setStatus("");
  };

The two RPCs (`get_guestbook_entries_by_token`, `get_artworks_by_token`)
are modelled by their outcomes (`none` = error; each error branch clears
its list), and the result records which RPCs were issued. -/

structure ArtworkView where
  id : String
  kid_name : String
  title : String
  image_url : String
  created_at : String
  artwork_made_at : Option String
  deriving DecidableEq, Repr

structure Entry where
  id : String
  display_name : String
  content : String
  created_at : String
  deriving DecidableEq, Repr

structure LoadAllResult where
  status : String
  artworks : List ArtworkView
  entries : List Entry
  calledGetArtworks : Bool
  calledGetGuestbook : Bool
  loading : Bool
  deriving Repr

def invalidLinkStatus : String := "❌ 초대 링크가 올바르지 않습니다."

def loadAll (token : String) (guestRes : Option (List Entry))
    (artRes : Option (List ArtworkView)) : LoadAllResult :=
  if token = "" ∨ (jsTrim token).length < 6 then
    { status := invalidLinkStatus, artworks := [], entries := [],
      calledGetArtworks := false, calledGetGuestbook := false,
      loading := false }
  else
    let entries := guestRes.getD []
    let artworks := artRes.getD []
    if !(guestRes.isSome && artRes.isSome) then
      { status := "❌ 초대 링크를 불러오지 못했습니다. (아래 디버그를 확인)",
        artworks := artworks, entries := entries,
        calledGetArtworks := true, calledGetGuestbook := true,
        loading := false }
    else
      { status := if artworks.length = 0 then "표시할 작품이 아직 없어요." else "",
        artworks := artworks, entries := entries,
        calledGetArtworks := true, calledGetGuestbook := true,
        loading := false }

instance {ε α : Type} [DecidableEq ε] [DecidableEq α] :
    DecidableEq (Except ε α) := fun a b =>
  match a, b with
  | .error e1, .error e2 =>
      if h : e1 = e2 then isTrue (by rw [h])
      else isFalse (fun hc => h (Except.error.inj hc))
  | .ok v1, .ok v2 =>
      if h : v1 = v2 then isTrue (by rw [h])
      else isFalse (fun hc => h (Except.ok.inj hc))
  | .error _, .ok _ => isFalse (fun hc => Except.noConfusion hc)
  | .ok _, .error _ => isFalse (fun hc => Except.noConfusion hc)

end KidsGallery

namespace KidsGallery

/-! ## Helper lemmas about the made-at parser -/

theorem digitVal_le_nine {c : Char} (h : isDigitChar c = true) :
    digitVal c ≤ 9 := by
  simp only [isDigitChar, decide_eq_true_eq] at h
  simp only [digitVal]
  omega

theorem readFixedDigits_bound :
    ∀ (n acc : Nat) (cs : List Char) (v : Nat) (rest : List Char),
      readFixedDigits n acc cs = some (v, rest) → v < (acc + 1) * 10 ^ n := by
  intro n
  induction n with
  | zero =>
      intro acc cs v rest h
      simp only [readFixedDigits, Option.some.injEq, Prod.mk.injEq] at h
      omega
  | succ k ih =>
      intro acc cs v rest h
      cases cs with
      | nil => simp [readFixedDigits] at h
      | cons c cs =>
          simp only [readFixedDigits] at h
          by_cases hd : isDigitChar c = true
          · rw [if_pos hd] at h
            have hb := ih (acc * 10 + digitVal c) cs v rest h
            have h9 := digitVal_le_nine hd
            have hle : acc * 10 + digitVal c + 1 ≤ (acc + 1) * 10 := by omega
            calc v < (acc * 10 + digitVal c + 1) * 10 ^ k := hb
              _ ≤ ((acc + 1) * 10) * 10 ^ k := Nat.mul_le_mul_right _ hle
              _ = (acc + 1) * 10 ^ (k + 1) := by ring
          · rw [if_neg hd] at h
            exact absurd h (by simp)

theorem madeAtMatch_bounds {cs : List Char} {y m d h mi : Nat}
    (hm : madeAtMatch cs = some (y, m, d, h, mi)) :
    y < 10000 ∧ m < 100 ∧ d < 100 ∧ h < 100 ∧ mi < 100 := by
  simp only [madeAtMatch, bind, Option.bind_eq_some] at hm
  obtain ⟨⟨y1, cs1⟩, h1, hm⟩ := hm
  obtain ⟨cs2, h2, hm⟩ := hm
  obtain ⟨⟨m1, cs3⟩, h3, hm⟩ := hm
  obtain ⟨cs4, h4, hm⟩ := hm
  obtain ⟨⟨d1, cs5⟩, h5, hm⟩ := hm
  obtain ⟨cs6, h6, hm⟩ := hm
  obtain ⟨⟨hh1, cs7⟩, h7, hm⟩ := hm
  obtain ⟨cs8, h8, hm⟩ := hm
  obtain ⟨⟨mi1, cs9⟩, h9, hm⟩ := hm
  have hy := readFixedDigits_bound 4 0 _ _ _ h1
  have hmm := readFixedDigits_bound 2 0 _ _ _ h3
  have hdd := readFixedDigits_bound 2 0 _ _ _ h5
  have hhh := readFixedDigits_bound 2 0 _ _ _ h7
  have hmi := readFixedDigits_bound 2 0 _ _ _ h9
  split at hm
  · simp only [Option.some.injEq, Prod.mk.injEq] at hm
    obtain ⟨e1, e2, e3, e4, e5⟩ := hm
    subst e1; subst e2; subst e3; subst e4; subst e5
    norm_num at hy hmm hdd hhh hmi
    exact ⟨hy, hmm, hdd, hhh, hmi⟩
  · exact absurd hm (by simp)

theorem jsYear_bounds {y : Nat} (h : y < 10000) :
    0 ≤ jsYear y ∧ jsYear y ≤ 9999 := by
  unfold jsYear
  split <;> omega

theorem jsDateValid_of_ranges (y m d : Int) (h0 : 0 ≤ y) (h1 : y ≤ 9999)
    (h2 : 1 ≤ m) (h3 : m ≤ 12) (h4 : 1 ≤ d) (h5 : d ≤ 31) :
    jsDateValid (jsEpochDay y m d) = true := by
  simp only [jsDateValid, jsEpochDay, daysFromCivil, decide_eq_true_eq]
  split_ifs <;> omega

end KidsGallery

namespace KidsGallery

theorem parse_of_match_none {s : String}
    (h : madeAtMatch (jsTrim s).toList = none) :
    parseArtworkMadeAt s = .error .patternErr := by
  simp only [parseArtworkMadeAt, h]

theorem parse_of_match_some {s : String} {y m d h mi : Nat}
    (hm : madeAtMatch (jsTrim s).toList = some (y, m, d, h, mi)) :
    parseArtworkMadeAt s = checkMadeAtFields y m d h mi := by
  simp only [parseArtworkMadeAt, hm]

theorem checkMadeAtFields_ne_patternErr (y m d h mi : Nat) :
    checkMadeAtFields y m d h mi ≠ .error .patternErr := by
  simp only [checkMadeAtFields]
  split_ifs <;> simp

theorem checkMadeAtFields_monthErr_iff (y m d h mi : Nat) :
    checkMadeAtFields y m d h mi = .error .monthErr ↔ ¬(1 ≤ m ∧ m ≤ 12) := by
  simp only [checkMadeAtFields]
  split_ifs <;> simp <;> omega

theorem checkMadeAtFields_dayErr_iff (y m d h mi : Nat) :
    checkMadeAtFields y m d h mi = .error .dayErr ↔
      (1 ≤ m ∧ m ≤ 12) ∧ ¬(1 ≤ d ∧ d ≤ 31) := by
  simp only [checkMadeAtFields]
  split_ifs <;> simp <;> omega

theorem checkMadeAtFields_minutesErr_iff (y m d h mi : Nat) :
    checkMadeAtFields y m d h mi = .error .minutesErr ↔
      (1 ≤ m ∧ m ≤ 12) ∧ (1 ≤ d ∧ d ≤ 31) ∧ mi ≠ 0 := by
  simp only [checkMadeAtFields]
  split_ifs <;> simp <;> omega

theorem checkMadeAtFields_hoursErr_iff (y m d h mi : Nat) :
    checkMadeAtFields y m d h mi = .error .hoursErr ↔
      (1 ≤ m ∧ m ≤ 12) ∧ (1 ≤ d ∧ d ≤ 31) ∧ mi = 0 ∧ ¬(h ≤ 23 ∨ h = 24) := by
  simp only [checkMadeAtFields]
  split_ifs <;> simp <;> omega

theorem checkMadeAtFields_ok_iff (y m d h mi : Nat) (hy : y < 10000) :
    (∃ dt, checkMadeAtFields y m d h mi = .ok dt) ↔
      (1 ≤ m ∧ m ≤ 12) ∧ (1 ≤ d ∧ d ≤ 31) ∧ mi = 0 ∧ (h ≤ 23 ∨ h = 24) := by
  simp only [checkMadeAtFields]
  by_cases h1 : m < 1 ∨ 12 < m
  · rw [if_pos h1]; simp; omega
  rw [if_neg h1]
  by_cases h2 : d < 1 ∨ 31 < d
  · rw [if_pos h2]; simp; omega
  rw [if_neg h2]
  by_cases h3 : mi ≠ 0
  · rw [if_pos h3]; simp; omega
  rw [if_neg h3]
  by_cases h4 : ¬ (h = 24 ∨ h ≤ 23)
  · rw [if_pos h4]; simp; omega
  rw [if_neg h4]
  have hvalid : jsDateValid (jsEpochDay (jsYear y) (m : Int) (d : Int)) = true := by
    apply jsDateValid_of_ranges (jsYear y) (m : Int) (d : Int)
        (jsYear_bounds hy).1 (jsYear_bounds hy).2 <;> omega
  rw [if_neg (by simp [hvalid])]
  simp
  omega

theorem checkMadeAtFields_hour24 (y m d : Nat) (hy : y < 10000)
    (hm : 1 ≤ m ∧ m ≤ 12) (hd : 1 ≤ d ∧ d ≤ 31) :
    checkMadeAtFields y m d 24 0 =
      .ok (localMidnight (jsEpochDay (jsYear y) (m : Int) (d : Int) + 1)) := by
  have hvalid : jsDateValid (jsEpochDay (jsYear y) (m : Int) (d : Int)) = true := by
    apply jsDateValid_of_ranges (jsYear y) (m : Int) (d : Int)
        (jsYear_bounds hy).1 (jsYear_bounds hy).2 <;> omega
  have g1 : ¬ (m < 1 ∨ 12 < m) := by omega
  have g2 : ¬ (d < 1 ∨ 31 < d) := by omega
  have g3 : ¬ ((0 : Nat) ≠ 0) := by omega
  simp only [checkMadeAtFields, localMidnight]
  rw [if_neg g1, if_neg g2, if_neg g3]
  simp [hvalid]

theorem checkMadeAtFields_ok_shape (y m d h : Nat) (hy : y < 10000)
    (hm : 1 ≤ m ∧ m ≤ 12) (hd : 1 ≤ d ∧ d ≤ 31) (hh : h ≤ 23) :
    checkMadeAtFields y m d h 0 =
      .ok ⟨(civilFromDays (jsEpochDay (jsYear y) (m : Int) (d : Int))).1,
           (civilFromDays (jsEpochDay (jsYear y) (m : Int) (d : Int))).2.1,
           (civilFromDays (jsEpochDay (jsYear y) (m : Int) (d : Int))).2.2,
           (h : Int)⟩ := by
  have hvalid : jsDateValid (jsEpochDay (jsYear y) (m : Int) (d : Int)) = true := by
    apply jsDateValid_of_ranges (jsYear y) (m : Int) (d : Int)
        (jsYear_bounds hy).1 (jsYear_bounds hy).2 <;> omega
  have g1 : ¬ (m < 1 ∨ 12 < m) := by omega
  have g2 : ¬ (d < 1 ∨ 31 < d) := by omega
  have g3 : ¬ ((0 : Nat) ≠ 0) := by omega
  have g4 : ¬ ¬ (h = 24 ∨ h ≤ 23) := by omega
  have g5 : ¬ (h = 24) := by omega
  simp only [checkMadeAtFields]
  rw [if_neg g1, if_neg g2, if_neg g3, if_neg g4]
  simp [hvalid, g5]

end KidsGallery

namespace KidsGallery

/-- C1: parseArtworkMadeAt applies its rejection rules in order, each with
a distinct error — pattern mismatch against YYYY-MM-DD HH:MM, then month
outside [1,12], then day outside [1,31], then minutes not equal to 00,
then hours outside [0,23] ∪ {24}; an input passing all rules is accepted,
and an accepted input with hour 24 is normalized to 00:00 of the next
calendar day.  In particular "2024-01-15 24:00" is accepted as local
2024-01-16T00:00, "2024-01-15 23:30" is rejected for minutes,
"2024-13-01 24:00" is rejected for month, and "abc" is rejected for
pattern. -/
theorem c1_made_at_rule_order :
    (∀ s : String, parseArtworkMadeAt s = .error .patternErr ↔
        madeAtMatch (jsTrim s).toList = none)
    ∧ (∀ (s : String) (y m d h mi : Nat),
        madeAtMatch (jsTrim s).toList = some (y, m, d, h, mi) →
          ((parseArtworkMadeAt s = .error .monthErr ↔ ¬(1 ≤ m ∧ m ≤ 12))
           ∧ (parseArtworkMadeAt s = .error .dayErr ↔
                (1 ≤ m ∧ m ≤ 12) ∧ ¬(1 ≤ d ∧ d ≤ 31))
           ∧ (parseArtworkMadeAt s = .error .minutesErr ↔
                (1 ≤ m ∧ m ≤ 12) ∧ (1 ≤ d ∧ d ≤ 31) ∧ mi ≠ 0)
           ∧ (parseArtworkMadeAt s = .error .hoursErr ↔
                (1 ≤ m ∧ m ≤ 12) ∧ (1 ≤ d ∧ d ≤ 31) ∧ mi = 0 ∧
                  ¬(h ≤ 23 ∨ h = 24))
           ∧ ((∃ dt, parseArtworkMadeAt s = .ok dt) ↔
                (1 ≤ m ∧ m ≤ 12) ∧ (1 ≤ d ∧ d ≤ 31) ∧ mi = 0 ∧
                  (h ≤ 23 ∨ h = 24))
           ∧ ((1 ≤ m ∧ m ≤ 12) → (1 ≤ d ∧ d ≤ 31) → mi = 0 → h = 24 →
                parseArtworkMadeAt s =
                  .ok (localMidnight
                        (jsEpochDay (jsYear y) (m : Int) (d : Int) + 1)))))
    ∧ parseArtworkMadeAt "2024-01-15 24:00" = .ok ⟨2024, 1, 16, 0⟩
    ∧ parseArtworkMadeAt "2024-01-15 23:30" = .error .minutesErr
    ∧ parseArtworkMadeAt "2024-13-01 24:00" = .error .monthErr
    ∧ parseArtworkMadeAt "abc" = .error .patternErr := by
  refine ⟨?_, ?_, by decide, by decide, by decide, by decide⟩
  · intro s
    constructor
    · intro hp
      cases hmm : madeAtMatch (jsTrim s).toList with
      | none => rfl
      | some q =>
          obtain ⟨y, m, d, h, mi⟩ := q
          rw [parse_of_match_some hmm] at hp
          exact absurd hp (checkMadeAtFields_ne_patternErr y m d h mi)
    · exact parse_of_match_none
  · intro s y m d h mi hm
    have hb := madeAtMatch_bounds hm
    rw [parse_of_match_some hm]
    refine ⟨checkMadeAtFields_monthErr_iff y m d h mi,
            checkMadeAtFields_dayErr_iff y m d h mi,
            checkMadeAtFields_minutesErr_iff y m d h mi,
            checkMadeAtFields_hoursErr_iff y m d h mi,
            checkMadeAtFields_ok_iff y m d h mi hb.1, ?_⟩
    intro hm1 hd1 hmi h24
    subst hmi
    subst h24
    exact checkMadeAtFields_hour24 y m d hb.1 hm1 hd1

/-- Witness for C1 at a concrete input: the pattern match of
"2024-02-28 24:00" captures (2024, 2, 28, 24, 0), all range rules pass,
and the hour-24 normalization yields midnight of the next day. -/
theorem c1_made_at_rule_order_witness :
    parseArtworkMadeAt "2024-02-28 24:00" =
      .ok (localMidnight (jsEpochDay (jsYear 2024) 2 28 + 1)) := by
  exact (c1_made_at_rule_order.2.1 "2024-02-28 24:00" 2024 2 28 24 0
      (by decide)).2.2.2.2.2 (by decide) (by decide) rfl rfl

/-- C9 (implicit): the validator accepts any day in [1,31] for every month
with no month-length check, and a day past the end of the month rolls over
into the following month by calendar normalization: the accepted result is
midnight-based day arithmetic from day 1 of the month, and e.g.
"2024-02-31 10:00" is accepted as local 2024-03-02T10:00 (not rejected,
not clamped to Feb 29). -/
theorem c9_day_rollover :
    (∀ (s : String) (y m d h mi : Nat),
        madeAtMatch (jsTrim s).toList = some (y, m, d, h, mi) →
        1 ≤ m → m ≤ 12 → 1 ≤ d → d ≤ 31 → mi = 0 → h ≤ 23 →
        parseArtworkMadeAt s =
          .ok ⟨(civilFromDays (jsEpochDay (jsYear y) (m : Int) (d : Int))).1,
               (civilFromDays (jsEpochDay (jsYear y) (m : Int) (d : Int))).2.1,
               (civilFromDays (jsEpochDay (jsYear y) (m : Int) (d : Int))).2.2,
               (h : Int)⟩)
    ∧ parseArtworkMadeAt "2024-02-31 10:00" = .ok ⟨2024, 3, 2, 10⟩
    ∧ parseArtworkMadeAt "2023-02-31 10:00" = .ok ⟨2023, 3, 3, 10⟩
    ∧ parseArtworkMadeAt "2024-02-31 10:00" ≠ .ok ⟨2024, 2, 29, 10⟩ := by
  refine ⟨?_, by decide, by decide, by decide⟩
  intro s y m d h mi hm h1 h2 h3 h4 hmi h5
  subst hmi
  rw [parse_of_match_some hm]
  exact checkMadeAtFields_ok_shape y m d h (madeAtMatch_bounds hm).1 ⟨h1, h2⟩ ⟨h3, h4⟩ h5

/-- Witness for C9 at a concrete input: "2024-04-31 05:00" matches with
captures (2024, 4, 31, 5, 0), passes every rule, and rolls over to
May 1. -/
theorem c9_day_rollover_witness :
    parseArtworkMadeAt "2024-04-31 05:00" = .ok ⟨2024, 5, 1, 5⟩ := by
  have h := c9_day_rollover.1 "2024-04-31 05:00" 2024 4 31 5 0 (by decide)
    (by decide) (by decide) (by decide) (by decide) rfl (by decide)
  exact h.trans (by decide)

end KidsGallery

namespace KidsGallery

/-- C2: after each mutation (publish, un-publish, extend, delete) the
invariant is_public = false → public_until = null holds; the togglePublic
payload sets public_until to null exactly when it sets is_public to false,
and extendTwoWeeks only ever writes is_public = true. -/
theorem c2_unpublish_invariant :
    ∀ (art : Artwork) (now : Int),
      ((applyUpdate art (togglePublic art now)).is_public = false →
        (applyUpdate art (togglePublic art now)).public_until = none)
      ∧ ((applyUpdate art (extendTwoWeeks now)).is_public = false →
        (applyUpdate art (extendTwoWeeks now)).public_until = none)
      ∧ ((togglePublic art now).public_until = none ↔
          (togglePublic art now).is_public = false)
      ∧ (extendTwoWeeks now).is_public = true
      ∧ (∀ (items : List Artwork) (confirmOk : Bool) (storagePath : String)
            (storageFails dbFails : Bool),
          (∀ b ∈ items, b.is_public = false → b.public_until = none) →
          ∀ b ∈ (deleteArtwork art items confirmOk storagePath
                  storageFails dbFails).items,
            b.is_public = false → b.public_until = none) := by
  intro art now
  refine ⟨?_, ?_, ?_, rfl, ?_⟩
  · cases h : art.is_public <;> simp [applyUpdate, togglePublic, h]
  · simp [applyUpdate, extendTwoWeeks]
  · cases h : art.is_public <;> simp [togglePublic, h]
  · intro items confirmOk storagePath sf dbf hinv b hb
    cases confirmOk with
    | false => simp [deleteArtwork] at hb; exact hinv b hb
    | true =>
        cases dbf with
        | false =>
            simp only [deleteArtwork, Bool.not_true, if_neg] at hb
            simp only [Bool.false_eq_true, if_false, List.mem_filter] at hb
            exact hinv b hb.1
        | true =>
            simp [deleteArtwork] at hb
            exact hinv b hb

/-- Witness for C2: un-publishing the sample public artwork yields a row
with is_public = false and public_until = null, and delete preserves the
invariant on a concrete list. -/
theorem c2_unpublish_invariant_witness :
    (applyUpdate artPub (togglePublic artPub 100)).public_until = none
    ∧ artPriv.public_until = none :=
  ⟨(c2_unpublish_invariant artPub 100).1 (by decide),
   (c2_unpublish_invariant artPub 100).2.2.2.2 [artPriv] true "fam/a1.jpg"
      true false (by decide) artPriv (by decide) (by decide)⟩

/-- C3: publish writes is_public = true and public_until = now + exactly
14 days, un-publish writes is_public = false and public_until = null, and
extend writes public_until = now + exactly 14 days with is_public kept
true. -/
theorem c3_transition_payloads :
    ∀ (art : Artwork) (now : Int),
      (art.is_public = false →
        togglePublic art now = ⟨true, some (now + 14 * 24 * 60 * 60 * 1000)⟩)
      ∧ (art.is_public = true → togglePublic art now = ⟨false, none⟩)
      ∧ extendTwoWeeks now = ⟨true, some (now + 14 * 24 * 60 * 60 * 1000)⟩
      ∧ TWO_WEEKS_MS = 14 * 24 * 60 * 60 * 1000 := by
  intro art now
  refine ⟨?_, ?_, rfl, rfl⟩
  · intro h; simp [togglePublic, h, TWO_WEEKS_MS]
  · intro h; simp [togglePublic, h]

/-- Witness for C3 on the sample rows: publishing the private artwork and
un-publishing the public one produce the claimed payloads. -/
theorem c3_transition_payloads_witness :
    togglePublic artPriv 100 = ⟨true, some (100 + 14 * 24 * 60 * 60 * 1000)⟩
    ∧ togglePublic artPub 100 = ⟨false, none⟩ :=
  ⟨(c3_transition_payloads artPriv 100).1 rfl,
   (c3_transition_payloads artPub 100).2.1 rfl⟩

/-- C4: the extend control is enabled exactly when the computed state is
PublicExpired, i.e. exactly when is_public = true and isExpired holds (the
predicate recomputed against now on each read); it is disabled for Private
and PublicActive artworks. -/
theorem c4_extend_enabled_iff :
    ∀ (art : Artwork) (now : Int),
      (extendEnabled art now = true ↔ artState art now = ArtState.PublicExpired)
      ∧ (extendEnabled art now = true ↔
          art.is_public = true ∧ isExpired art now = true)
      ∧ ((artState art now = ArtState.Private ∨
          artState art now = ArtState.PublicActive) →
            extendEnabled art now = false) := by
  intro art now
  cases hp : art.is_public <;> cases hx : isExpired art now <;>
    simp [extendEnabled, artState, hp, hx]

/-- Witness for C4: the sample private artwork is in state Private, and
the extend control is disabled for it. -/
theorem c4_extend_enabled_iff_witness :
    extendEnabled artPriv 100 = false :=
  (c4_extend_enabled_iff artPriv 100).2.2 (Or.inl (by decide))

/-- C10 (implicit): with public_until = null, isExpired returns false even
when is_public = true, so the artwork is classified PublicActive and the
extend control is never enabled; the predicate is total and never compares
against a null timestamp (the null branch returns false directly). -/
theorem c10_null_public_until :
    ∀ (art : Artwork) (now : Int),
      art.public_until = none →
        isExpired art now = false
        ∧ extendEnabled art now = false
        ∧ (art.is_public = true → artState art now = ArtState.PublicActive)
        ∧ (art.is_public = false → artState art now = ArtState.Private) := by
  intro art now h
  cases hp : art.is_public <;> simp [isExpired, extendEnabled, artState, h, hp]

/-- Witness for C10: the sample public artwork with null public_until is
never expired, never extendable, and reads as PublicActive at a concrete
time. -/
theorem c10_null_public_until_witness :
    isExpired artPubNoUntil 100 = false
    ∧ extendEnabled artPubNoUntil 100 = false
    ∧ artState artPubNoUntil 100 = ArtState.PublicActive :=
  ⟨(c10_null_public_until artPubNoUntil 100 rfl).1,
   (c10_null_public_until artPubNoUntil 100 rfl).2.1,
   (c10_null_public_until artPubNoUntil 100 rfl).2.2.1 rfl⟩

end KidsGallery

namespace KidsGallery

/-- C5: for a non-null public_until, daysLeft is the ceiling of
(public_until - now) / 1 day — characterized by the strict lower and weak
upper bound of the ceiling; it is 2 at now + 36h and ≤ 0 at now - 1s, and
the gallery renders any value ≤ 0 as the fixed "오늘 종료" (ends today)
label, never as a negative day count. -/
theorem c5_days_left_ceiling :
    (∀ t now : Int, ∃ k, daysLeft (some t) now = some k ∧
        MS_PER_DAY * (k - 1) < t - now ∧ t - now ≤ MS_PER_DAY * k)
    ∧ (∀ now : Int, daysLeft (some (now + 36 * 60 * 60 * 1000)) now = some 2)
    ∧ (∀ now : Int, ∃ k, daysLeft (some (now - 1000)) now = some k ∧ k ≤ 0)
    ∧ (∀ now : Int, daysLeft none now = none)
    ∧ (∀ (u : Option Int) (now l : Int),
        daysLeft u now = some l → l ≤ 0 → leftText u now = "오늘 종료")
    ∧ (∀ (u : Option Int) (now l : Int),
        daysLeft u now = some l → 0 < l →
          leftText u now = toString l ++ "일 남음") := by
  refine ⟨?_, ?_, ?_, fun _ => rfl, ?_, ?_⟩
  · intro t now
    refine ⟨ceilDiv (t - now) MS_PER_DAY, rfl, ?_, ?_⟩ <;>
      · simp only [ceilDiv, MS_PER_DAY]
        omega
  · intro now
    simp only [daysLeft, ceilDiv, MS_PER_DAY, Option.some.injEq]
    omega
  · intro now
    refine ⟨ceilDiv (now - 1000 - now) MS_PER_DAY, rfl, ?_⟩
    simp only [ceilDiv, MS_PER_DAY]
    omega
  · intro u now l hd hl
    cases u with
    | none => simp [daysLeft] at hd
    | some t =>
        simp only [leftText, hd]
        rw [if_pos hl]
  · intro u now l hd hl
    cases u with
    | none => simp [daysLeft] at hd
    | some t =>
        simp only [leftText, hd]
        rw [if_neg (by omega)]

/-- Witness for C5 at concrete instants: 36 hours ahead of time 0 gives 2
days left, and one second past gives the "ends today" label. -/
theorem c5_days_left_ceiling_witness :
    daysLeft (some (0 + 36 * 60 * 60 * 1000)) 0 = some 2
    ∧ leftText (some (-1000)) 0 = "오늘 종료" :=
  ⟨c5_days_left_ceiling.2.1 0,
   c5_days_left_ceiling.2.2.2.2.1 (some (-1000)) 0 0 (by decide) (by decide)⟩

/-- C6 counterexample: the byte-to-character selection of makeToken is NOT
uniform over uniformly random bytes.  The alphabet has 57 symbols and
256 = 4 * 57 + 28, so 5 of the 256 byte values select 'A' (alphabet index
0) while only 4 select '9' (index 56). -/
theorem c6_uniformity_counterexample :
    'A' ∈ tokenAlphabet ∧ '9' ∈ tokenAlphabet
    ∧ ((List.range 256).filter (fun b => tokenCharOfByte b = 'A')).length = 5
    ∧ ((List.range 256).filter (fun b => tokenCharOfByte b = '9')).length = 4
    ∧ ((List.range 256).filter (fun b => tokenCharOfByte b = 'A')).length ≠
        ((List.range 256).filter (fun b => tokenCharOfByte b = '9')).length := by
  decide

/-- C6 amended: makeToken(len) returns exactly len characters (28 at the
invite generate/regenerate call site), every character belongs to the
57-symbol ambiguity-reduced alphabet, and the byte-to-character mapping
b % 57 selects each of the first 28 alphabet symbols for 5 of the 256
byte values and each of the remaining 29 symbols for 4 — a slight modulo
bias rather than an exactly uniform selection. -/
theorem c6_token_alphabet_amended :
    ∀ bytes : List Nat,
      (makeToken bytes).length = bytes.length
      ∧ (bytes.length = inviteTokenLen → (makeToken bytes).length = 28)
      ∧ (∀ c ∈ (makeToken bytes).toList, c ∈ tokenAlphabet)
      ∧ tokenAlphabet.length = 57
      ∧ (∀ i, i < 57 →
          ((List.range 256).filter
              (fun b => b % tokenAlphabet.length = i)).length =
            if i < 28 then 5 else 4) := by
  have hmem : ∀ j, j < 57 → tokenAlphabet.getD j 'A' ∈ tokenAlphabet := by decide
  intro bytes
  refine ⟨?_, ?_, ?_, rfl, by decide⟩
  · simp [makeToken]
  · intro h
    simp [makeToken, h, inviteTokenLen]
  · intro c hc
    simp only [makeToken, String.toList] at hc
    obtain ⟨b, hb, rfl⟩ := List.mem_map.mp hc
    have hlt : b % tokenAlphabet.length < 57 := Nat.mod_lt _ (by decide)
    exact hmem (b % tokenAlphabet.length) hlt

/-- Witness for C6 (amended) at concrete bytes: a 5-byte input yields a
5-character token, byte 0 yields the alphabet character 'A', and alphabet
index 0 is selected by exactly 5 of the 256 byte values. -/
theorem c6_token_alphabet_amended_witness :
    (makeToken [0, 27, 28, 56, 255]).length = 5
    ∧ 'A' ∈ tokenAlphabet
    ∧ ((List.range 256).filter
        (fun b => b % tokenAlphabet.length = 0)).length = 5 :=
  ⟨(c6_token_alphabet_amended [0, 27, 28, 56, 255]).1,
   (c6_token_alphabet_amended [0]).2.2.1 'A' (by decide),
   by
    have h := (c6_token_alphabet_amended []).2.2.2.2 0 (by decide)
    simpa using h⟩

end KidsGallery

namespace KidsGallery

/-- C7: a token that is empty or whose trimmed length is below 6 makes
loadAll short-circuit to the terminal invalid-link status with both lists
cleared and neither lookup RPC issued; with a trimmed length of at least 6
both lookup RPCs are issued. -/
theorem c7_load_all_token_gate :
    ∀ (token : String) (g : Option (List Entry)) (ar : Option (List ArtworkView)),
      ((jsTrim token).length < 6 →
        loadAll token g ar =
          { status := invalidLinkStatus, artworks := [], entries := [],
            calledGetArtworks := false, calledGetGuestbook := false,
            loading := false })
      ∧ (6 ≤ (jsTrim token).length →
        (loadAll token g ar).calledGetArtworks = true
        ∧ (loadAll token g ar).calledGetGuestbook = true) := by
  intro token g ar
  constructor
  · intro h
    simp only [loadAll, if_pos (Or.inr h)]
  · intro h
    have hne : ¬(token = "" ∨ (jsTrim token).length < 6) := by
      rintro (rfl | hlt)
      · have h0 : (jsTrim "").length = 0 := rfl
        omega
      · omega
    simp only [loadAll, if_neg hne]
    cases g <;> cases ar <;> simp

/-- Witness for C7 at concrete tokens: "abc" (trimmed length 3) hits the
invalid-link short-circuit without any RPC; "abcdef" (trimmed length 6)
issues the artwork lookup. -/
theorem c7_load_all_token_gate_witness :
    loadAll "abc" none none =
      { status := invalidLinkStatus, artworks := [], entries := [],
        calledGetArtworks := false, calledGetGuestbook := false,
        loading := false }
    ∧ (loadAll "abcdef" none none).calledGetArtworks = true :=
  ⟨(c7_load_all_token_gate "abc" none none).1 (by decide),
   ((c7_load_all_token_gate "abcdef" none none).2 (by decide)).1⟩

/-- C8: in deleteArtwork the storage removal precedes the database delete,
the database delete is attempted regardless of storage failure, the item
is removed from the in-memory list only when the database delete succeeds,
and a failed database delete leaves the list unchanged. -/
theorem c8_delete_order :
    ∀ (art : Artwork) (items : List Artwork) (storagePath : String)
      (storageFails dbFails : Bool),
      (storagePath ≠ "" →
        (deleteArtwork art items true storagePath storageFails dbFails).actions =
          [DeleteAction.removeStorage storagePath, DeleteAction.deleteDb art.id])
      ∧ (storagePath = "" →
        (deleteArtwork art items true storagePath storageFails dbFails).actions =
          [DeleteAction.deleteDb art.id])
      ∧ DeleteAction.deleteDb art.id ∈
          (deleteArtwork art items true storagePath storageFails dbFails).actions
      ∧ (dbFails = true →
          (deleteArtwork art items true storagePath storageFails dbFails).items
            = items)
      ∧ (dbFails = false →
          (deleteArtwork art items true storagePath storageFails dbFails).items
            = items.filter (fun x => x.id ≠ art.id)) := by
  intro art items sp sf dbf
  cases dbf <;> by_cases hsp : sp = "" <;> simp [deleteArtwork, hsp]

/-- Witness for C8 on sample data with the storage removal failing: the
database delete is still issued after the storage removal, and a failing
database delete keeps the list intact. -/
theorem c8_delete_order_witness :
    (deleteArtwork artPub [artPub, artPriv] true "fam/a1.jpg" true false).actions =
      [DeleteAction.removeStorage "fam/a1.jpg", DeleteAction.deleteDb "a1"]
    ∧ (deleteArtwork artPub [artPub, artPriv] true "fam/a1.jpg" true true).items =
        [artPub, artPriv] :=
  ⟨(c8_delete_order artPub [artPub, artPriv] "fam/a1.jpg" true false).1
      (by decide),
   (c8_delete_order artPub [artPub, artPriv] "fam/a1.jpg" true true).2.2.2.1 rfl⟩

end KidsGallery
